import Mathlib

/-!
Shallow embedding of `src/01_Closure.js`: the closure examples that the
claims concern (`createAPICache` with `fakeFetch`, `loginSystem`,
`createCoupon`).

JavaScript values are modelled by `JSValue` and JS truthiness by `truthy`
(the cache test in the source is `if (cache[url])`, a truthiness test, and
an absent property reads as `undefined`). The private `cache` object of
`createAPICache` is an association list threaded as explicit state, with
prepending modelling property assignment (lookup takes the most recent
binding). The asynchronous `fetchFunction` is modelled as a function from
the invocation index (how many times this wrapper has already invoked it)
and the url to a resolve/reject outcome, so stateful fetch functions are
representable; the state also carries `calls`, the log of arguments of all
invocations of the underlying fetch, to make invocation counts observable.
-/

/-- Fragment of JavaScript runtime values relevant to the claims. -/
inductive JSValue where
  | vUndefined : JSValue
  | vNull : JSValue
  | vBool : Bool → JSValue
  | vNum : Int → JSValue
  | vStr : String → JSValue
  deriving DecidableEq

/-- JavaScript truthiness, as tested by `if (cache[url])` in the source. -/
def truthy : JSValue → Bool
  | .vUndefined => false
  | .vNull => false
  | .vBool b => b
  | .vNum n => n != 0
  | .vStr s => s != ""

/-- Lookup in the private cache object: keys are compared by exact string
equality (`k = url`), with no normalization, mirroring JS property access. -/
def cacheLookup : List (String × JSValue) → String → Option JSValue
  | [], _ => none
  | (k, v) :: rest, url => if k = url then some v else cacheLookup rest url

/-- Reading `cache[url]`: an absent property reads as `undefined`. -/
def cacheGet (c : List (String × JSValue)) (url : String) : JSValue :=
  match cacheLookup c url with
  | some v => v
  | none => .vUndefined

/-- Outcome of awaiting the underlying fetch: the promise resolves with a
value or rejects with a thrown value. -/
inductive FetchResult where
  | ok : JSValue → FetchResult
  | error : JSValue → FetchResult
  deriving DecidableEq

/-- The state captured by one wrapper instance: its private `cache`, plus the
log of arguments of all invocations of the underlying fetch function. -/
structure CacheState where
  cache : List (String × JSValue)
  calls : List String
  deriving DecidableEq

/-- One sequential invocation of the wrapper returned by `createAPICache`:

    if (cache[url]) { return cache[url]; }
    const result = await fetchFunction(url);
    cache[url] = result;
    return result;

A rejection of `fetchFunction` propagates and skips the store. -/
def cachedFetchCall (ff : Nat → String → FetchResult) (s : CacheState) (url : String) :
    FetchResult × CacheState :=
  if truthy (cacheGet s.cache url) then
    (.ok (cacheGet s.cache url), s)
  else
    match ff s.calls.length url with
    | .ok result => (.ok result, ⟨(url, result) :: s.cache, s.calls ++ [url]⟩)
    | .error e => (.error e, ⟨s.cache, s.calls ++ [url]⟩)

/-- The fresh state a call to `createAPICache` closes over: `const cache = {}`
and no invocations of the underlying fetch yet. -/
def createAPICache : CacheState := ⟨[], []⟩

/-- Run a sequence of sequential wrapper invocations, returning the final state. -/
def runCalls (ff : Nat → String → FetchResult) : CacheState → List String → CacheState
  | s, [] => s
  | s, url :: rest => runCalls ff (cachedFetchCall ff s url).2 rest

/-- The resolved value of `fakeFetch(url)` from the source (the timeout delay
is not part of the value). -/
def fakeFetch (url : String) : JSValue := .vStr ("Data from " ++ url)

/-- `fakeFetch` as an underlying operation: always resolves, independent of
the invocation index. -/
def fakeFetchOp : Nat → String → FetchResult := fun _ url => .ok (fakeFetch url)

/-- An underlying operation that resolves with the invocation index: call
number n resolves with the number n (0 on the first call, a falsy value). -/
def flakyOp : Nat → String → FetchResult := fun n _ => .ok (.vNum (Int.ofNat n))

/-- An underlying operation that always rejects. -/
def failOp : Nat → String → FetchResult := fun _ _ => .error (.vStr "network down")

/-- An underlying operation that always resolves with the empty string, a
falsy value. -/
def emptyStrOp : Nat → String → FetchResult := fun _ _ => .ok (.vStr "")

/-- The value v was resolved by the underlying operation for key k at some
invocation index. -/
def producedBy (ff : Nat → String → FetchResult) (k : String) (v : JSValue) : Prop :=
  ∃ n, ff n k = .ok v

/-- A resolved wrapper outcome carries only values the underlying operation
produced for the key that was asked. -/
def resultFor (ff : Nat → String → FetchResult) (k : String) : FetchResult → Prop
  | .ok v => producedBy ff k v
  | .error _ => True

/-- Every entry of the cache was produced by the underlying operation for its
own key. Holds of the fresh state and is preserved by every invocation. -/
def GoodState (ff : Nat → String → FetchResult) (s : CacheState) : Prop :=
  ∀ p ∈ s.cache, producedBy ff p.1 p.2

/-- Two wrapper instances built by two separate calls to `createAPICache` on
the same underlying fetch function. Each wrapper owns its private cache
(`const cache = {}` runs once per `createAPICache` call), but any closure
state of the shared `fetchFunction` itself is common to both wrappers: the
single `log` records all invocations of the underlying fetch from either
wrapper, and the fetch sees that shared invocation index. -/
structure SharedWorld where
  cache1 : List (String × JSValue)
  cache2 : List (String × JSValue)
  log : List String

/-- One invocation of the first wrapper: its private `cache1` is consulted
and updated; the underlying fetch, when invoked, sees the shared index. -/
def sharedCall1 (ff : Nat → String → FetchResult) (w : SharedWorld) (url : String) :
    FetchResult × SharedWorld :=
  if truthy (cacheGet w.cache1 url) then
    (.ok (cacheGet w.cache1 url), w)
  else
    match ff w.log.length url with
    | .ok result => (.ok result, ⟨(url, result) :: w.cache1, w.cache2, w.log ++ [url]⟩)
    | .error e => (.error e, ⟨w.cache1, w.cache2, w.log ++ [url]⟩)

/-- One invocation of the second wrapper, symmetric to `sharedCall1`. -/
def sharedCall2 (ff : Nat → String → FetchResult) (w : SharedWorld) (url : String) :
    FetchResult × SharedWorld :=
  if truthy (cacheGet w.cache2 url) then
    (.ok (cacheGet w.cache2 url), w)
  else
    match ff w.log.length url with
    | .ok result => (.ok result, ⟨w.cache1, (url, result) :: w.cache2, w.log ++ [url]⟩)
    | .error e => (.error e, ⟨w.cache1, w.cache2, w.log ++ [url]⟩)

/-- The world right after two separate calls to `createAPICache`: both
private caches fresh, the shared fetch function not yet invoked. -/
def freshWorld : SharedWorld := ⟨[], [], []⟩

/-- Run a call sequence on the first wrapper only. -/
def runShared1 (ff : Nat → String → FetchResult) : SharedWorld → List String → SharedWorld
  | w, [] => w
  | w, url :: rest => runShared1 ff (sharedCall1 ff w url).2 rest

/-- `maxAttempts` from `loginSystem`. -/
def maxAttempts : Nat := 3

/-- One invocation of the closure returned by `loginSystem`, on the captured
`attempts` counter:

    if (attempts >= maxAttempts) return "Account locked!";
    if (password === "secret123") return "Login successful!";
    attempts++;
    return Wrong password! (maxAttempts - attempts) tries left
-/
def loginCall (attempts : Nat) (password : String) : String × Nat :=
  if attempts ≥ maxAttempts then ("Account locked!", attempts)
  else if password = "secret123" then ("Login successful!", attempts)
  else ("Wrong password! " ++ toString (maxAttempts - (attempts + 1)) ++ " tries left",
    attempts + 1)

/-- Run a sequence of login attempts from a given `attempts` counter,
collecting the returned messages. -/
def loginRun : Nat → List String → List String
  | _, [] => []
  | attempts, p :: ps =>
    (loginCall attempts p).1 :: loginRun (loginCall attempts p).2 ps

/-- One invocation of the closure returned by `createCoupon(code, discount,
maxUses)`, on the captured `uses` counter:

    if (uses >= maxUses) return Coupon code expired!;
    uses++;
    const finalPrice = price - discount;
    return Coupon code applied! Final price: finalPrice (Remaining uses: maxUses - uses)
-/
def couponCall (code : String) (discount : Int) (maxUses : Nat) (uses : Nat) (price : Int) :
    String × Nat :=
  if uses ≥ maxUses then
    ("❌ Coupon \"" ++ code ++ "\" expired!", uses)
  else
    ("✅ Coupon \"" ++ code ++ "\" applied! Final price: $" ++ toString (price - discount) ++
      " (Remaining uses: " ++ toString (maxUses - (uses + 1)) ++ ")", uses + 1)

/-- Run a sequence of coupon applications from a given `uses` counter,
collecting the returned messages. -/
def couponRun (code : String) (discount : Int) (maxUses : Nat) : Nat → List Int → List String
  | _, [] => []
  | uses, p :: ps =>
    (couponCall code discount maxUses uses p).1 ::
      couponRun code discount maxUses (couponCall code discount maxUses uses p).2 ps

/-! ## Helper lemmas about the cache -/

lemma cacheGet_of_lookup_none {c : List (String × JSValue)} {url : String}
    (h : cacheLookup c url = none) : cacheGet c url = .vUndefined := by
  simp [cacheGet, h]

lemma truthy_cacheGet_lookup {c : List (String × JSValue)} {url : String}
    (h : truthy (cacheGet c url) = true) :
    cacheLookup c url = some (cacheGet c url) := by
  cases hl : cacheLookup c url with
  | none =>
    rw [cacheGet_of_lookup_none hl] at h
    simp [truthy] at h
  | some v =>
    simp [cacheGet, hl]

lemma cacheLookup_mem {c : List (String × JSValue)} {url : String} {v : JSValue}
    (h : cacheLookup c url = some v) : (url, v) ∈ c := by
  induction c with
  | nil => simp [cacheLookup] at h
  | cons p rest ih =>
    obtain ⟨k0, v0⟩ := p
    by_cases hk : k0 = url
    · subst hk
      simp [cacheLookup] at h
      subst h
      exact List.mem_cons_self _ _
    · simp [cacheLookup, hk] at h
      exact List.mem_cons_of_mem _ (ih h)

lemma cacheLookup_cons_ne {c : List (String × JSValue)} {k q : String} {v : JSValue}
    (h : k ≠ q) : cacheLookup ((k, v) :: c) q = cacheLookup c q := by
  simp [cacheLookup, h]

/-! ## Helper lemmas about one wrapper invocation -/

lemma cachedFetchCall_hit {ff : Nat → String → FetchResult} {s : CacheState} {k : String}
    (h : truthy (cacheGet s.cache k) = true) :
    cachedFetchCall ff s k = (.ok (cacheGet s.cache k), s) := by
  simp [cachedFetchCall, h]

lemma cachedFetchCall_miss_ok {ff : Nat → String → FetchResult} {s : CacheState} {k : String}
    {v : JSValue} (h : truthy (cacheGet s.cache k) = false)
    (hok : ff s.calls.length k = .ok v) :
    cachedFetchCall ff s k = (.ok v, ⟨(k, v) :: s.cache, s.calls ++ [k]⟩) := by
  simp [cachedFetchCall, h, hok]

lemma cachedFetchCall_miss_error {ff : Nat → String → FetchResult} {s : CacheState} {k : String}
    {e : JSValue} (h : truthy (cacheGet s.cache k) = false)
    (herr : ff s.calls.length k = .error e) :
    cachedFetchCall ff s k = (.error e, ⟨s.cache, s.calls ++ [k]⟩) := by
  simp [cachedFetchCall, h, herr]

/-- A truthy cache entry survives any later invocation unchanged: a call with
the same key is a cache hit and a call with another key stores under that
other key only. -/
lemma truthy_persists (ff : Nat → String → FetchResult) {s : CacheState} {k : String}
    (url : String) (h : truthy (cacheGet s.cache k) = true) :
    cacheGet (cachedFetchCall ff s url).2.cache k = cacheGet s.cache k := by
  by_cases hu : url = k
  · subst hu
    rw [cachedFetchCall_hit h]
  · cases ht : truthy (cacheGet s.cache url) with
    | true => rw [cachedFetchCall_hit ht]
    | false =>
      cases hff : ff s.calls.length url with
      | ok v =>
        rw [cachedFetchCall_miss_ok ht hff]
        simp [cacheGet, cacheLookup, hu]
      | error e =>
        rw [cachedFetchCall_miss_error ht hff]

/-- A truthy cache entry survives any later call sequence unchanged. -/
lemma truthy_persists_run (ff : Nat → String → FetchResult) {s : CacheState} {k : String}
    (urls : List String) (h : truthy (cacheGet s.cache k) = true) :
    cacheGet (runCalls ff s urls).cache k = cacheGet s.cache k := by
  induction urls generalizing s with
  | nil => rfl
  | cons u rest ih =>
    have hp := truthy_persists ff u h
    rw [runCalls]
    exact (ih (by rw [hp]; exact h)).trans hp

/-! ## Helper lemmas about the two-wrapper world -/

lemma sharedCall1_cache2 (ff : Nat → String → FetchResult) (w : SharedWorld) (url : String) :
    (sharedCall1 ff w url).2.cache2 = w.cache2 := by
  unfold sharedCall1
  split
  · rfl
  · split <;> rfl

lemma runShared1_cache2 (ff : Nat → String → FetchResult) (w : SharedWorld)
    (urls : List String) :
    (runShared1 ff w urls).cache2 = w.cache2 := by
  induction urls generalizing w with
  | nil => rfl
  | cons u rest ih => rw [runShared1, ih, sharedCall1_cache2]

lemma sharedCall2_hit {ff : Nat → String → FetchResult} {w : SharedWorld} {k : String}
    (h : truthy (cacheGet w.cache2 k) = true) :
    sharedCall2 ff w k = (.ok (cacheGet w.cache2 k), w) := by
  simp [sharedCall2, h]

lemma sharedCall2_fst_miss {ff : Nat → String → FetchResult} {w : SharedWorld} {k : String}
    (h : truthy (cacheGet w.cache2 k) = false) :
    (sharedCall2 ff w k).1 = ff w.log.length k := by
  unfold sharedCall2
  rw [if_neg (by simp [h])]
  cases hf : ff w.log.length k <;> rfl

/-! ## Claim theorems -/

/-- Claim C1, counterexample to the claim as stated: with an underlying
operation that resolves call number n with the number n, the first wrapper
call for key k resolves with 0 (a falsy value); the second call with the same
key does not return 0 again and does invoke the underlying operation again
(the cache test `if (cache[url])` rejects the stored falsy value). -/
theorem apiCache_memo_counterexample :
    (cachedFetchCall flakyOp createAPICache "k").1 = .ok (.vNum 0) ∧
    (cachedFetchCall flakyOp (cachedFetchCall flakyOp createAPICache "k").2 "k").1 ≠
      .ok (.vNum 0) ∧
    (cachedFetchCall flakyOp (cachedFetchCall flakyOp createAPICache "k").2 "k").2.calls ≠
      (cachedFetchCall flakyOp createAPICache "k").2.calls := by
  refine ⟨rfl, ?_, ?_⟩ <;> decide

/-- Claim C1 (amended: the resolved value must be truthy): if a wrapper call
for key k resolves with a truthy value v, then after any further sequence of
sequential calls, a call with k returns v and leaves the state unchanged —
in particular the underlying fetch is not invoked again. -/
theorem apiCache_truthy_memoization (ff : Nat → String → FetchResult) (s : CacheState)
    (k : String) (v : JSValue) (mid : List String)
    (hres : (cachedFetchCall ff s k).1 = .ok v) (htr : truthy v = true) :
    cachedFetchCall ff (runCalls ff (cachedFetchCall ff s k).2 mid) k =
      (.ok v, runCalls ff (cachedFetchCall ff s k).2 mid) := by
  have hstore : cacheGet (cachedFetchCall ff s k).2.cache k = v := by
    cases ht : truthy (cacheGet s.cache k) with
    | true =>
      rw [cachedFetchCall_hit ht] at hres ⊢
      simpa using hres
    | false =>
      cases hff : ff s.calls.length k with
      | ok r =>
        rw [cachedFetchCall_miss_ok ht hff] at hres ⊢
        simp at hres
        subst hres
        simp [cacheGet, cacheLookup]
      | error e =>
        rw [cachedFetchCall_miss_error ht hff] at hres
        simp at hres
  have hpre : truthy (cacheGet (cachedFetchCall ff s k).2.cache k) = true := by
    rw [hstore]; exact htr
  have hrun := truthy_persists_run ff mid hpre
  have htr2 : truthy (cacheGet (runCalls ff (cachedFetchCall ff s k).2 mid).cache k) = true := by
    rw [hrun]; exact hpre
  rw [cachedFetchCall_hit htr2, hrun, hstore]

/-- Claim C1, witness for the amended theorem at a concrete input. -/
theorem apiCache_truthy_memoization_witness :
    cachedFetchCall fakeFetchOp
        (runCalls fakeFetchOp (cachedFetchCall fakeFetchOp createAPICache "A").2 ["B"]) "A" =
      (.ok (.vStr "Data from A"),
        runCalls fakeFetchOp (cachedFetchCall fakeFetchOp createAPICache "A").2 ["B"]) :=
  apiCache_truthy_memoization fakeFetchOp createAPICache "A" (.vStr "Data from A") ["B"]
    rfl rfl

/-- Claim C2: on a key with no stored entry, the wrapper invokes the
underlying fetch exactly once and with argument k (the call log grows by
exactly the one element k), and on resolution with r it stores the entry
(k, r) in its cache and returns r. -/
theorem apiCache_first_call (ff : Nat → String → FetchResult) (s : CacheState)
    (k : String) (r : JSValue)
    (hnew : cacheLookup s.cache k = none)
    (hok : ff s.calls.length k = .ok r) :
    cachedFetchCall ff s k = (.ok r, ⟨(k, r) :: s.cache, s.calls ++ [k]⟩) := by
  have hf : truthy (cacheGet s.cache k) = false := by
    rw [cacheGet_of_lookup_none hnew]
    rfl
  exact cachedFetchCall_miss_ok hf hok

/-- Claim C2, witness at a concrete input. -/
theorem apiCache_first_call_witness :
    cachedFetchCall fakeFetchOp createAPICache "A" =
      (.ok (.vStr "Data from A"), ⟨[("A", .vStr "Data from A")], ["A"]⟩) :=
  apiCache_first_call fakeFetchOp createAPICache "A" (.vStr "Data from A") rfl rfl

/-- Claim C3: when the underlying fetch rejects on a cache miss, the wrapper
propagates that failure, its cache is unchanged (nothing is stored for k) and
the fetch was invoked once; a subsequent call with the same k invokes the
underlying operation again rather than short-circuiting. -/
theorem apiCache_no_failure_caching (ff : Nat → String → FetchResult) (s : CacheState)
    (k : String) (e : JSValue)
    (hmiss : truthy (cacheGet s.cache k) = false)
    (herr : ff s.calls.length k = .error e) :
    cachedFetchCall ff s k = (.error e, ⟨s.cache, s.calls ++ [k]⟩) ∧
    (cachedFetchCall ff ⟨s.cache, s.calls ++ [k]⟩ k).2.calls = (s.calls ++ [k]) ++ [k] := by
  refine ⟨cachedFetchCall_miss_error hmiss herr, ?_⟩
  have hmiss2 : truthy (cacheGet (⟨s.cache, s.calls ++ [k]⟩ : CacheState).cache k) = false :=
    hmiss
  cases hff : ff (⟨s.cache, s.calls ++ [k]⟩ : CacheState).calls.length k with
  | ok v => rw [cachedFetchCall_miss_ok hmiss2 hff]
  | error e2 => rw [cachedFetchCall_miss_error hmiss2 hff]

/-- Claim C3, witness at a concrete input. -/
theorem apiCache_no_failure_caching_witness :
    cachedFetchCall failOp createAPICache "X" =
      (.error (.vStr "network down"),
        ⟨createAPICache.cache, createAPICache.calls ++ ["X"]⟩) ∧
    (cachedFetchCall failOp ⟨createAPICache.cache, createAPICache.calls ++ ["X"]⟩ "X").2.calls =
      (createAPICache.calls ++ ["X"]) ++ ["X"] :=
  apiCache_no_failure_caching failOp createAPICache "X" (.vStr "network down") rfl rfl

/-- Claim C4: key isolation. From any state whose cache entries were all
produced for their own keys, a wrapper call with key k preserves that
invariant, invokes the underlying operation with no key other than k (the
call log grows by at most the one element k), and any resolved outcome is a
value the underlying operation produced for k itself — never a value
produced only for a different key, and never a value it did not produce. -/
theorem apiCache_key_isolation (ff : Nat → String → FetchResult) (s : CacheState)
    (k : String) (hg : GoodState ff s) :
    GoodState ff (cachedFetchCall ff s k).2 ∧
    ((cachedFetchCall ff s k).2.calls = s.calls ∨
      (cachedFetchCall ff s k).2.calls = s.calls ++ [k]) ∧
    resultFor ff k (cachedFetchCall ff s k).1 := by
  cases ht : truthy (cacheGet s.cache k) with
  | true =>
    rw [cachedFetchCall_hit ht]
    refine ⟨hg, Or.inl rfl, ?_⟩
    have hmem := cacheLookup_mem (truthy_cacheGet_lookup ht)
    exact hg _ hmem
  | false =>
    cases hff : ff s.calls.length k with
    | ok v =>
      rw [cachedFetchCall_miss_ok ht hff]
      refine ⟨?_, Or.inr rfl, ⟨s.calls.length, hff⟩⟩
      intro p hp
      rcases List.mem_cons.mp hp with h | h
      · subst h
        exact ⟨s.calls.length, hff⟩
      · exact hg _ h
    | error e =>
      rw [cachedFetchCall_miss_error ht hff]
      exact ⟨hg, Or.inr rfl, trivial⟩

/-- Claim C4, witness at a concrete input (the fresh state is a good state). -/
theorem apiCache_key_isolation_witness :
    GoodState fakeFetchOp (cachedFetchCall fakeFetchOp createAPICache "A").2 ∧
    ((cachedFetchCall fakeFetchOp createAPICache "A").2.calls = createAPICache.calls ∨
      (cachedFetchCall fakeFetchOp createAPICache "A").2.calls =
        createAPICache.calls ++ ["A"]) ∧
    resultFor fakeFetchOp "A" (cachedFetchCall fakeFetchOp createAPICache "A").1 :=
  apiCache_key_isolation fakeFetchOp createAPICache "A"
    (fun p hp => absurd hp (by simp [createAPICache]))

/-- Claim C5: the scenario from the source. Wrapping `fakeFetch`, a first call
with key A resolves with the string Data from A after one underlying
invocation; a second call with A resolves with the same string while the
underlying invocation log still has the single element A; a call with B
resolves with Data from B and the log becomes the two invocations A then B. -/
theorem apiCache_scenario :
    (cachedFetchCall fakeFetchOp createAPICache "A").1 = .ok (.vStr "Data from A") ∧
    (cachedFetchCall fakeFetchOp createAPICache "A").2.calls = ["A"] ∧
    (cachedFetchCall fakeFetchOp
        (cachedFetchCall fakeFetchOp createAPICache "A").2 "A").1 =
      .ok (.vStr "Data from A") ∧
    (cachedFetchCall fakeFetchOp
        (cachedFetchCall fakeFetchOp createAPICache "A").2 "A").2.calls = ["A"] ∧
    (cachedFetchCall fakeFetchOp
        (cachedFetchCall fakeFetchOp
          (cachedFetchCall fakeFetchOp createAPICache "A").2 "A").2 "B").1 =
      .ok (.vStr "Data from B") ∧
    (cachedFetchCall fakeFetchOp
        (cachedFetchCall fakeFetchOp
          (cachedFetchCall fakeFetchOp createAPICache "A").2 "A").2 "B").2.calls =
      ["A", "B"] :=
  ⟨rfl, rfl, rfl, rfl, rfl, rfl⟩

/-- Claim C6, counterexample to the claim as stated: the call results of one
wrapper are not invariant under calls on the other when the shared underlying
fetch function carries state of its own. With the fetch that resolves call
number n with the number n, shared by both wrappers: from the fresh world the
second wrapper's call for A resolves with 0, but after the first wrapper has
called A, the same second-wrapper call resolves with 1 — the call on the
first wrapper changed a call result of the second. -/
theorem apiCache_instance_results_counterexample :
    (sharedCall2 flakyOp (sharedCall1 flakyOp freshWorld "A").2 "A").1 ≠
      (sharedCall2 flakyOp freshWorld "A").1 ∧
    (sharedCall2 flakyOp (sharedCall1 flakyOp freshWorld "A").2 "A").1 = .ok (.vNum 1) ∧
    (sharedCall2 flakyOp freshWorld "A").1 = .ok (.vNum 0) := by
  refine ⟨?_, ?_, ?_⟩ <;> decide

/-- Claim C6 (amended: the caches are isolated, the call results only under a
stateless fetch): each `createAPICache` call closes over its own fresh store,
so any sequence of calls on the first wrapper leaves the private cache of the
second unchanged, entry for entry — resolving a key on one instance never
makes it cached in the other, and a key absent from the second cache is still
absent afterwards. The second wrapper's call results are also unchanged
whenever the shared underlying fetch function is stateless (independent of
the shared invocation index); for a stateful fetch they may shift through the
fetch itself, as the counterexample shows, but never through the caches. -/
theorem apiCache_instance_cache_isolation (ff : Nat → String → FetchResult)
    (w : SharedWorld) (urls : List String) :
    (runShared1 ff w urls).cache2 = w.cache2 ∧
    (∀ k, cacheLookup (runShared1 ff w urls).cache2 k = cacheLookup w.cache2 k) ∧
    (∀ k, cacheLookup w.cache2 k = none →
      cacheLookup (runShared1 ff w urls).cache2 k = none) ∧
    (∀ k, (∀ n m u, ff n u = ff m u) →
      (sharedCall2 ff (runShared1 ff w urls) k).1 = (sharedCall2 ff w k).1) := by
  refine ⟨runShared1_cache2 ff w urls, ?_, ?_, ?_⟩
  · intro k
    rw [runShared1_cache2]
  · intro k h
    rw [runShared1_cache2]
    exact h
  · intro k hs
    cases ht : truthy (cacheGet w.cache2 k) with
    | true =>
      have ht1 : truthy (cacheGet (runShared1 ff w urls).cache2 k) = true := by
        rw [runShared1_cache2]
        exact ht
      rw [sharedCall2_hit ht1, sharedCall2_hit ht, runShared1_cache2]
    | false =>
      have ht1 : truthy (cacheGet (runShared1 ff w urls).cache2 k) = false := by
        rw [runShared1_cache2]
        exact ht
      rw [sharedCall2_fst_miss ht1, sharedCall2_fst_miss ht]
      exact hs _ _ k

/-- Claim C7: frame property of one wrapper invocation. Entries of every
other key are unchanged in presence and value; the cache is either unchanged
or extended by exactly one entry, and that entry is for k itself; a cache hit
(truthy stored value) changes nothing. -/
theorem apiCache_frame (ff : Nat → String → FetchResult) (s : CacheState) (k : String) :
    (∀ q, q ≠ k → cacheLookup (cachedFetchCall ff s k).2.cache q = cacheLookup s.cache q) ∧
    ((cachedFetchCall ff s k).2.cache = s.cache ∨
      ∃ r, (cachedFetchCall ff s k).2.cache = (k, r) :: s.cache) ∧
    (truthy (cacheGet s.cache k) = true → (cachedFetchCall ff s k).2.cache = s.cache) := by
  cases ht : truthy (cacheGet s.cache k) with
  | true =>
    rw [cachedFetchCall_hit ht]
    exact ⟨fun q _ => rfl, Or.inl rfl, fun _ => rfl⟩
  | false =>
    cases hff : ff s.calls.length k with
    | ok v =>
      rw [cachedFetchCall_miss_ok ht hff]
      refine ⟨?_, Or.inr ⟨v, rfl⟩, ?_⟩
      · intro q hq
        exact cacheLookup_cons_ne (fun h => hq h.symm)
      · intro h
        exact absurd h (by simp)
    | error e =>
      rw [cachedFetchCall_miss_error ht hff]
      exact ⟨fun q _ => rfl, Or.inl rfl, fun _ => rfl⟩

/-- Claim C8: the cache test is truthiness-gated. When a miss resolves with a
falsy value v, the entry (k, v) is stored, yet the next call with k invokes
the underlying operation again instead of serving it; a stored truthy value,
by contrast, is served with no new invocation and unchanged state. -/
theorem apiCache_truthiness_gate (ff : Nat → String → FetchResult) (s : CacheState)
    (k : String) (v : JSValue)
    (hmiss : truthy (cacheGet s.cache k) = false)
    (hok : ff s.calls.length k = .ok v)
    (hfalsy : truthy v = false) :
    cacheLookup (cachedFetchCall ff s k).2.cache k = some v ∧
    (cachedFetchCall ff (cachedFetchCall ff s k).2 k).2.calls = (s.calls ++ [k]) ++ [k] ∧
    (∀ t : CacheState, truthy (cacheGet t.cache k) = true →
      cachedFetchCall ff t k = (.ok (cacheGet t.cache k), t)) := by
  rw [cachedFetchCall_miss_ok hmiss hok]
  have hstore : cacheGet ((k, v) :: s.cache) k = v := by
    simp [cacheGet, cacheLookup]
  have hmiss2 :
      truthy (cacheGet (⟨(k, v) :: s.cache, s.calls ++ [k]⟩ : CacheState).cache k) = false := by
    rw [show (⟨(k, v) :: s.cache, s.calls ++ [k]⟩ : CacheState).cache = (k, v) :: s.cache
      from rfl, hstore]
    exact hfalsy
  refine ⟨by simp [cacheLookup], ?_, fun t h => cachedFetchCall_hit h⟩
  cases hff : ff (⟨(k, v) :: s.cache, s.calls ++ [k]⟩ : CacheState).calls.length k with
  | ok v2 => rw [cachedFetchCall_miss_ok hmiss2 hff]
  | error e2 => rw [cachedFetchCall_miss_error hmiss2 hff]

/-- Claim C8, witness at a concrete input: an operation resolving with the
empty string (falsy). -/
theorem apiCache_truthiness_gate_witness :
    cacheLookup (cachedFetchCall emptyStrOp createAPICache "X").2.cache "X" =
      some (.vStr "") ∧
    (cachedFetchCall emptyStrOp
        (cachedFetchCall emptyStrOp createAPICache "X").2 "X").2.calls =
      (createAPICache.calls ++ ["X"]) ++ ["X"] ∧
    (∀ t : CacheState, truthy (cacheGet t.cache "X") = true →
      cachedFetchCall emptyStrOp t "X" = (.ok (cacheGet t.cache "X"), t)) :=
  apiCache_truthiness_gate emptyStrOp createAPICache "X" (.vStr "") rfl rfl rfl

/-- Claim C9: the login lockout is off by one with respect to the source
comments. Starting from a fresh `loginSystem` closure, three wrong passwords
yield the messages 2, 1 and 0 tries left — the third wrong call returns
Wrong password! 0 tries left, not a lock message; Account locked! is returned
exactly on calls made when three wrong attempts have already been counted,
and then even for the correct password secret123 (the fourth call of the
trace). -/
theorem loginSystem_lockout_off_by_one (p1 p2 p3 : String)
    (h1 : p1 ≠ "secret123") (h2 : p2 ≠ "secret123") (h3 : p3 ≠ "secret123") :
    loginRun 0 [p1, p2, p3, "secret123"] =
      ["Wrong password! 2 tries left", "Wrong password! 1 tries left",
        "Wrong password! 0 tries left", "Account locked!"] ∧
    (∀ (a : Nat) (p : String), a < maxAttempts → (loginCall a p).1 ≠ "Account locked!") ∧
    (∀ (a : Nat) (p : String), maxAttempts ≤ a → (loginCall a p).1 = "Account locked!") := by
  refine ⟨?_, ?_, ?_⟩
  · have e1 : loginCall 0 p1 = ("Wrong password! 2 tries left", 1) := by
      simp only [loginCall, maxAttempts]
      rw [if_neg (by omega : ¬ (0 : Nat) ≥ 3), if_neg h1]
      decide
    have e2 : loginCall 1 p2 = ("Wrong password! 1 tries left", 2) := by
      simp only [loginCall, maxAttempts]
      rw [if_neg (by omega : ¬ (1 : Nat) ≥ 3), if_neg h2]
      decide
    have e3 : loginCall 2 p3 = ("Wrong password! 0 tries left", 3) := by
      simp only [loginCall, maxAttempts]
      rw [if_neg (by omega : ¬ (2 : Nat) ≥ 3), if_neg h3]
      decide
    have e4 : loginCall 3 "secret123" = ("Account locked!", 3) := by decide
    simp [loginRun, e1, e2, e3, e4]
  · intro a p ha
    have ha3 : a < 3 := ha
    simp only [loginCall, maxAttempts]
    rw [if_neg (by omega : ¬ a ≥ 3)]
    by_cases hp : p = "secret123"
    · rw [if_pos hp]
      show ("Login successful!" : String) ≠ "Account locked!"
      decide
    · rw [if_neg hp]
      interval_cases a <;> decide
  · intro a p ha
    have ha3 : a ≥ 3 := ha
    simp only [loginCall, maxAttempts]
    rw [if_pos ha3]

/-- Claim C9, witness at concrete wrong passwords. -/
theorem loginSystem_lockout_witness :
    loginRun 0 ["test", "wrong", "nope", "secret123"] =
      ["Wrong password! 2 tries left", "Wrong password! 1 tries left",
        "Wrong password! 0 tries left", "Account locked!"] ∧
    (∀ (a : Nat) (p : String), a < maxAttempts → (loginCall a p).1 ≠ "Account locked!") ∧
    (∀ (a : Nat) (p : String), maxAttempts ≤ a → (loginCall a p).1 = "Account locked!") :=
  loginSystem_lockout_off_by_one "test" "wrong" "nope" (by decide) (by decide) (by decide)

/-- Claim C10: coupon usage bound with unbounded discount. While uses is
below maxUses a call succeeds, reports exactly price − discount (an integer
subtraction with no floor at zero, negative when price < discount) and
consumes one use; once uses reaches maxUses every call returns the expired
message and consumes nothing. The concrete trace shows a WELCOME50 coupon
(50 off, 2 uses) pricing 200 at 150, then 30 at −20, then expiring. -/
theorem createCoupon_usage_bound (code : String) (discount : Int) (maxUses uses : Nat)
    (price : Int) (h : uses < maxUses) :
    couponCall code discount maxUses uses price =
      ("✅ Coupon \"" ++ code ++ "\" applied! Final price: $" ++ toString (price - discount) ++
        " (Remaining uses: " ++ toString (maxUses - (uses + 1)) ++ ")", uses + 1) ∧
    (∀ (price2 : Int) (uses2 : Nat), maxUses ≤ uses2 →
      couponCall code discount maxUses uses2 price2 =
        ("❌ Coupon \"" ++ code ++ "\" expired!", uses2)) ∧
    couponRun "WELCOME50" 50 2 0 [200, 30, 300] =
      ["✅ Coupon \"WELCOME50\" applied! Final price: $150 (Remaining uses: 1)",
        "✅ Coupon \"WELCOME50\" applied! Final price: $-20 (Remaining uses: 0)",
        "❌ Coupon \"WELCOME50\" expired!"] := by
  refine ⟨?_, ?_, ?_⟩
  · unfold couponCall
    rw [if_neg (by omega : ¬ uses ≥ maxUses)]
  · intro price2 uses2 h2
    have h2g : uses2 ≥ maxUses := h2
    unfold couponCall
    rw [if_pos h2g]
  · decide

/-- Claim C10, witness at the concrete WELCOME50 coupon. -/
theorem createCoupon_usage_bound_witness :
    couponCall "WELCOME50" 50 2 0 200 =
      ("✅ Coupon \"WELCOME50\" applied! Final price: $150 (Remaining uses: 1)", 1) ∧
    (∀ (price2 : Int) (uses2 : Nat), 2 ≤ uses2 →
      couponCall "WELCOME50" 50 2 uses2 price2 =
        ("❌ Coupon \"WELCOME50\" expired!", uses2)) ∧
    couponRun "WELCOME50" 50 2 0 [200, 30, 300] =
      ["✅ Coupon \"WELCOME50\" applied! Final price: $150 (Remaining uses: 1)",
        "✅ Coupon \"WELCOME50\" applied! Final price: $-20 (Remaining uses: 0)",
        "❌ Coupon \"WELCOME50\" expired!"] :=
  createCoupon_usage_bound "WELCOME50" 50 2 0 200 (by decide)
